import Mathlib

set_option linter.unusedVariables false

/-! Verification development for the image-resource layer, frame engine and
teardown ordering of the vulkan-rs rendering support crate.  The definitions
are shallow embeddings of the Rust sources
(src/support/vulkan/core/resources/image.rs, src/support/vulkan/device.rs,
src/support/app.rs); the frame-engine core, whose implementation file is not
part of the sources, is modelled from the specification and marked as such. -/

/-- Vulkan pixel formats that occur in the image resource layer. -/
inductive VkFormat
  | R8G8B8_UNORM
  | R8G8B8A8_UNORM
  | B8G8R8_UNORM
  | B8G8R8A8_UNORM
  | R16G16B16_UNORM
  | R16G16B16A16_UNORM
  | R32G32B32A32_SFLOAT
  deriving DecidableEq

/-- Formats with four channels, used to state the 24-bit conversion claims. -/
def VkFormat.is_four_channel : VkFormat → Bool
  | .R8G8B8A8_UNORM | .B8G8R8A8_UNORM | .R16G16B16A16_UNORM | .R32G32B32A32_SFLOAT => true
  | _ => false

/-- ImageDescription (image.rs): format, dimensions, raw pixel bytes (each
entry one byte value) and mip level count. -/
structure ImageDescription where
  format : VkFormat
  width : Nat
  height : Nat
  pixels : List Nat
  mip_levels : Nat
  deriving DecidableEq

/-- ImageDescription::calculate_mip_levels.  The Rust source computes
`((width.min(height) as f32).log2().floor() + 1.0) as u32`; this embedding
uses the exact integer base-2 logarithm, which is the value of that
expression whenever the f32 computation is exact.  The divergence between
the f32 pipeline and the exact logarithm for large inputs is deliberately
not asserted by any theorem below. -/
def ImageDescription.calculate_mip_levels (width height : Nat) : Nat :=
  Nat.log2 (min width height) + 1

/-- Errors of the image-description construction path. -/
inductive ImageError
  | unmatched_format
  | invalid_raw_pixels
  deriving DecidableEq

/-- The `image::DynamicImage` variants matched by ImageDescription::from_image.
For the 8-bit variants the payload is the raw byte container; for the 16-bit
variants it is the list of 16-bit channel values. -/
inductive DynImage
  | imageRgb8 (width height : Nat) (bytes : List Nat)
  | imageRgba8 (width height : Nat) (bytes : List Nat)
  | imageBgr8 (width height : Nat) (bytes : List Nat)
  | imageBgra8 (width height : Nat) (bytes : List Nat)
  | imageRgb16 (width height : Nat) (words : List Nat)
  | imageRgba16 (width height : Nat) (words : List Nat)
  | unmatched
  deriving DecidableEq

/-- DynamicImage::to_bytes: the 8-bit variants expose their byte container
directly; the 16-bit variants expose each channel value in native (little
endian) byte order. -/
def DynImage.to_bytes : DynImage → List Nat
  | .imageRgb8 _ _ bytes => bytes
  | .imageRgba8 _ _ bytes => bytes
  | .imageBgr8 _ _ bytes => bytes
  | .imageBgra8 _ _ bytes => bytes
  | .imageRgb16 _ _ words => words.flatMap (fun v => [v % 256, v / 256 % 256])
  | .imageRgba16 _ _ words => words.flatMap (fun v => [v % 256, v / 256 % 256])
  | .unmatched => []

/-- The format/dimension match at the head of ImageDescription::from_image;
`none` corresponds to the `bail!` branch for unmatched image formats. -/
def DynImage.format_and_dims : DynImage → Option (VkFormat × Nat × Nat)
  | .imageRgb8 w h _ => some (.R8G8B8_UNORM, w, h)
  | .imageRgba8 w h _ => some (.R8G8B8A8_UNORM, w, h)
  | .imageBgr8 w h _ => some (.B8G8R8_UNORM, w, h)
  | .imageBgra8 w h _ => some (.B8G8R8A8_UNORM, w, h)
  | .imageRgb16 w h _ => some (.R16G16B16_UNORM, w, h)
  | .imageRgba16 w h _ => some (.R16G16B16A16_UNORM, w, h)
  | .unmatched => none

/-- Expansion of `count` leading RGB pixel triples of a byte container into
RGBA quadruples with alpha 255, as produced by iterating `pixels()` of the
reconstructed `RgbImage` and applying `to_rgba` (alpha `u8::MAX`). -/
def expand_pixels : Nat → List Nat → List Nat
  | 0, _ => []
  | n + 1, r :: g :: b :: rest => r :: g :: b :: 255 :: expand_pixels n rest
  | _ + 1, _ => []

/-- ImageDescription::attach_alpha_channel: rebuild an `RgbImage` from the raw
pixel container (which succeeds exactly when the container holds at least
`3 * width * height` bytes) and replace the pixels with the RGBA expansion;
on failure the `context` error is returned. -/
def ImageDescription.attach_alpha_channel (d : ImageDescription) :
    Except ImageError ImageDescription :=
  if 3 * (d.width * d.height) ≤ d.pixels.length then
    .ok { d with pixels := expand_pixels (d.width * d.height) d.pixels }
  else
    .error .invalid_raw_pixels

/-- The format match of ImageDescription::convert_24bit_formats: only the two
8-bit three-channel formats are mapped to their four-channel variants. -/
def converted_24bit_format : VkFormat → Option VkFormat
  | .R8G8B8_UNORM => some .R8G8B8A8_UNORM
  | .B8G8R8_UNORM => some .B8G8R8A8_UNORM
  | _ => none

/-- ImageDescription::convert_24bit_formats: when the format is one of the two
8-bit 24-bit formats, reinterpret it as the four-channel variant and attach
an alpha channel; every other format is returned unchanged. -/
def ImageDescription.convert_24bit_formats (d : ImageDescription) :
    Except ImageError ImageDescription :=
  match converted_24bit_format d.format with
  | none => .ok d
  | some f => ImageDescription.attach_alpha_channel { d with format := f }

/-- ImageDescription::from_image: match the dynamic image to a Vulkan format,
take its raw bytes and mip level count, then run the 24-bit conversion. -/
def ImageDescription.from_image (image : DynImage) :
    Except ImageError ImageDescription :=
  match image.format_and_dims with
  | none => .error .unmatched_format
  | some (format, width, height) =>
      ImageDescription.convert_24bit_formats
        { format := format
          width := width
          height := height
          pixels := image.to_bytes
          mip_levels := ImageDescription.calculate_mip_levels width height }

theorem expand_pixels_length (n : Nat) :
    ∀ bytes : List Nat, 3 * n ≤ bytes.length →
      (expand_pixels n bytes).length = 4 * n := by
  induction n with
  | zero => intro bytes _; simp [expand_pixels]
  | succ m ih =>
      intro bytes hlen
      match bytes with
      | [] => simp at hlen
      | [r] => simp at hlen; omega
      | [r, g] => simp at hlen; omega
      | r :: g :: b :: rest =>
          have hrest : 3 * m ≤ rest.length := by
            simp [List.length_cons] at hlen; omega
          simp [expand_pixels, ih rest hrest]
          omega

theorem expand_pixels_alpha (n : Nat) :
    ∀ (bytes : List Nat) (i : Nat), 3 * n ≤ bytes.length → i < n →
      (expand_pixels n bytes).get? (4 * i + 3) = some 255 := by
  induction n with
  | zero => intro bytes i _ hi; omega
  | succ m ih =>
      intro bytes i hlen hi
      match bytes with
      | [] => simp at hlen
      | [r] => simp at hlen; omega
      | [r, g] => simp at hlen; omega
      | r :: g :: b :: rest =>
          have hrest : 3 * m ≤ rest.length := by
            simp [List.length_cons] at hlen; omega
          match i with
          | 0 => simp [expand_pixels]
          | j + 1 =>
              have hj : j < m := by omega
              have h4 : 4 * (j + 1) + 3 = (4 * j + 3) + 4 := by omega
              simp only [expand_pixels, h4]
              simpa using ih rest j hrest hj

theorem from_image_rgb8_eq (w h : Nat) (bytes : List Nat)
    (hlen : bytes.length = 3 * (w * h)) :
    ImageDescription.from_image (DynImage.imageRgb8 w h bytes) =
      .ok { format := .R8G8B8A8_UNORM, width := w, height := h,
            pixels := expand_pixels (w * h) bytes,
            mip_levels := ImageDescription.calculate_mip_levels w h } := by
  simp [ImageDescription.from_image, DynImage.format_and_dims, DynImage.to_bytes,
        ImageDescription.convert_24bit_formats, converted_24bit_format,
        ImageDescription.attach_alpha_channel, hlen]

theorem from_image_bgr8_eq (w h : Nat) (bytes : List Nat)
    (hlen : bytes.length = 3 * (w * h)) :
    ImageDescription.from_image (DynImage.imageBgr8 w h bytes) =
      .ok { format := .B8G8R8A8_UNORM, width := w, height := h,
            pixels := expand_pixels (w * h) bytes,
            mip_levels := ImageDescription.calculate_mip_levels w h } := by
  simp [ImageDescription.from_image, DynImage.format_and_dims, DynImage.to_bytes,
        ImageDescription.convert_24bit_formats, converted_24bit_format,
        ImageDescription.attach_alpha_channel, hlen]

/-- C2 counterexample: the 16-bit three-channel source `ImageRgb16` is accepted
by from_image, yet its description keeps the three-channel format tag
`R16G16B16_UNORM` and its pixel bytes are passed through without a synthesized
alpha channel, refuting the claim for 16-bit RGB variants. -/
theorem from_image_rgb16_stays_three_channel :
    ImageDescription.from_image (DynImage.imageRgb16 1 1 [7, 8, 9]) =
      .ok { format := .R16G16B16_UNORM, width := 1, height := 1,
            pixels := [7, 0, 8, 0, 9, 0], mip_levels := 1 } ∧
    VkFormat.is_four_channel .R16G16B16_UNORM = false := by
  constructor
  · simp [ImageDescription.from_image, DynImage.format_and_dims, DynImage.to_bytes,
          ImageDescription.convert_24bit_formats, converted_24bit_format,
          ImageDescription.calculate_mip_levels, Nat.log2]
  · rfl

/-- C2 (amended): for every three-channel 8-bit source image (RGB8 or BGR8,
with the byte container of the exact `3 * width * height` size the image
library maintains), from_image yields the corresponding four-channel format
tag and pixels whose synthesized fourth channel is 255 at every pixel; the
16-bit three-channel variant is not converted (see the counterexample). -/
theorem from_image_converts_8bit_three_channel (w h : Nat) (bytes : List Nat)
    (hlen : bytes.length = 3 * (w * h)) :
    (ImageDescription.from_image (DynImage.imageRgb8 w h bytes) =
      .ok { format := .R8G8B8A8_UNORM, width := w, height := h,
            pixels := expand_pixels (w * h) bytes,
            mip_levels := ImageDescription.calculate_mip_levels w h }) ∧
    (ImageDescription.from_image (DynImage.imageBgr8 w h bytes) =
      .ok { format := .B8G8R8A8_UNORM, width := w, height := h,
            pixels := expand_pixels (w * h) bytes,
            mip_levels := ImageDescription.calculate_mip_levels w h }) ∧
    (VkFormat.is_four_channel .R8G8B8A8_UNORM = true) ∧
    (VkFormat.is_four_channel .B8G8R8A8_UNORM = true) ∧
    (∀ i : Nat, i < w * h → (expand_pixels (w * h) bytes).get? (4 * i + 3) = some 255) := by
  refine ⟨from_image_rgb8_eq w h bytes hlen, from_image_bgr8_eq w h bytes hlen, rfl, rfl, ?_⟩
  intro i hi
  exact expand_pixels_alpha (w * h) bytes i (le_of_eq hlen.symm) hi

/-- C2 witness: the amended conversion theorem evaluated at a concrete
1-by-1 RGB8 source image. -/
theorem from_image_converts_8bit_three_channel_witness :
    (ImageDescription.from_image (DynImage.imageRgb8 1 1 [10, 20, 30]) =
      .ok { format := .R8G8B8A8_UNORM, width := 1, height := 1,
            pixels := expand_pixels (1 * 1) [10, 20, 30],
            mip_levels := ImageDescription.calculate_mip_levels 1 1 }) ∧
    (ImageDescription.from_image (DynImage.imageBgr8 1 1 [10, 20, 30]) =
      .ok { format := .B8G8R8A8_UNORM, width := 1, height := 1,
            pixels := expand_pixels (1 * 1) [10, 20, 30],
            mip_levels := ImageDescription.calculate_mip_levels 1 1 }) ∧
    (VkFormat.is_four_channel .R8G8B8A8_UNORM = true) ∧
    (VkFormat.is_four_channel .B8G8R8A8_UNORM = true) ∧
    (∀ i : Nat, i < 1 * 1 → (expand_pixels (1 * 1) [10, 20, 30]).get? (4 * i + 3) = some 255) :=
  from_image_converts_8bit_three_channel 1 1 [10, 20, 30] (by decide)

/-- C6: a three-channel 8-bit source image (R8G8B8 or B8G8R8) passed through
from_image ends with a pixel byte vector of exactly 4/3 of the original byte
length and the corresponding four-channel format tag. -/
theorem alpha_synthesis_four_thirds_length (w h : Nat) (bytes : List Nat)
    (hlen : bytes.length = 3 * (w * h)) :
    (∃ d, ImageDescription.from_image (DynImage.imageRgb8 w h bytes) = .ok d ∧
       3 * d.pixels.length = 4 * bytes.length ∧ d.format = .R8G8B8A8_UNORM ∧
       VkFormat.is_four_channel d.format = true) ∧
    (∃ d, ImageDescription.from_image (DynImage.imageBgr8 w h bytes) = .ok d ∧
       3 * d.pixels.length = 4 * bytes.length ∧ d.format = .B8G8R8A8_UNORM ∧
       VkFormat.is_four_channel d.format = true) := by
  have hexp : (expand_pixels (w * h) bytes).length = 4 * (w * h) :=
    expand_pixels_length (w * h) bytes (le_of_eq hlen.symm)
  constructor
  · refine ⟨_, from_image_rgb8_eq w h bytes hlen, ?_, rfl, rfl⟩
    simp [hexp, hlen]; ring
  · refine ⟨_, from_image_bgr8_eq w h bytes hlen, ?_, rfl, rfl⟩
    simp [hexp, hlen]; ring

/-- C6 witness: the 4/3 length theorem evaluated at a concrete 2-by-1 source
image of 6 bytes. -/
theorem alpha_synthesis_four_thirds_length_witness :
    (∃ d, ImageDescription.from_image (DynImage.imageRgb8 2 1 [1, 2, 3, 4, 5, 6]) = .ok d ∧
       3 * d.pixels.length = 4 * (6 : Nat) ∧ d.format = .R8G8B8A8_UNORM ∧
       VkFormat.is_four_channel d.format = true) ∧
    (∃ d, ImageDescription.from_image (DynImage.imageBgr8 2 1 [1, 2, 3, 4, 5, 6]) = .ok d ∧
       3 * d.pixels.length = 4 * (6 : Nat) ∧ d.format = .B8G8R8A8_UNORM ∧
       VkFormat.is_four_channel d.format = true) := by
  have h := alpha_synthesis_four_thirds_length 2 1 [1, 2, 3, 4, 5, 6] (by decide)
  simpa using h

/-- Image layouts used by the upload and mipmap path. -/
inductive VkImageLayout
  | UNDEFINED
  | TRANSFER_DST_OPTIMAL
  | TRANSFER_SRC_OPTIMAL
  | SHADER_READ_ONLY_OPTIMAL
  deriving DecidableEq

/-- Access masks used by the upload and mipmap path. -/
inductive VkAccess
  | EMPTY
  | TRANSFER_WRITE
  | TRANSFER_READ
  | SHADER_READ
  deriving DecidableEq

/-- Pipeline stage masks used by the upload and mipmap path. -/
inductive VkPipelineStage
  | TOP_OF_PIPE
  | TRANSFER
  | FRAGMENT_SHADER
  deriving DecidableEq

/-- Blit filter; the source only ever uses linear filtering. -/
inductive VkFilter
  | LINEAR
  deriving DecidableEq

/-- ImageLayoutTransition (image.rs, lines 16-30): the builder defaults are
`base_mip_level = 0`, `level_count = 1`, `layer_count = 1`. -/
structure ImageLayoutTransition where
  base_mip_level : Nat := 0
  level_count : Nat := 1
  layer_count : Nat := 1
  old_layout : VkImageLayout
  new_layout : VkImageLayout
  src_access_mask : VkAccess
  dst_access_mask : VkAccess
  src_stage_mask : VkPipelineStage
  dst_stage_mask : VkPipelineStage
  deriving DecidableEq

/-- The `vk::ImageSubresourceRange` built by `transition_image`; the base
array layer is never set by the source and therefore keeps the Vulkan
builder default 0. -/
structure ImageSubresourceRange where
  base_mip_level : Nat := 0
  level_count : Nat := 1
  base_array_layer : Nat := 0
  layer_count : Nat := 1
  deriving DecidableEq

/-- Subresource range of the barrier issued by `transition_image` for a given
ImageLayoutTransition. -/
def transition_image_range (info : ImageLayoutTransition) : ImageSubresourceRange :=
  { base_mip_level := info.base_mip_level
    level_count := info.level_count
    layer_count := info.layer_count }

/-- The `vk::BufferImageCopy` region built by AllocatedImage::copy_to_gpu_buffer:
full extent at mip level 0, one array layer starting at layer 0. -/
structure BufferImageCopy where
  buffer_offset : Nat := 0
  width : Nat
  height : Nat
  depth : Nat := 1
  mip_level : Nat := 0
  base_array_layer : Nat := 0
  layer_count : Nat
  deriving DecidableEq

/-- The `vk::ImageBlit` region built by AllocatedImage::blit_mipmap, with the
zero minimum corners left implicit and the maximum offsets recorded. -/
structure ImageBlit where
  src_mip_level : Nat
  src_base_array_layer : Nat := 0
  src_layer_count : Nat
  dst_mip_level : Nat
  dst_base_array_layer : Nat := 0
  dst_layer_count : Nat
  src_offset_x : Int
  src_offset_y : Int
  dst_offset_x : Int
  dst_offset_y : Int
  filter : VkFilter
  deriving DecidableEq

/-- Commands recorded against the transient command pool by the upload path. -/
inductive Cmd
  | transition (t : ImageLayoutTransition)
  | copy_buffer_to_image (r : BufferImageCopy)
  | blit_image (b : ImageBlit)
  deriving DecidableEq

/-- MipmapBlitDimensions (image.rs): next dimensions are the floored halves
clamped below at 1.  Rust's i32 division truncates toward zero, as does
`Int.div`. -/
structure MipmapBlitDimensions where
  width : Int
  height : Int
  next_width : Int
  next_height : Int
  deriving DecidableEq

/-- MipmapBlitDimensions::new. -/
def MipmapBlitDimensions.new (width height : Int) : MipmapBlitDimensions :=
  { width := width
    height := height
    next_width := max (Int.tdiv width 2) 1
    next_height := max (Int.tdiv height 2) 1 }

/-- The conversion `description.width as i32` used by generate_mipmaps. -/
def u32_as_i32 (n : Nat) : Int :=
  let m := n % 4294967296
  if m < 2147483648 then (m : Int) else (m : Int) - 4294967296

/-- AllocatedImage::transition_base_to_transfer_dst. -/
def transition_base_to_transfer_dst (level_count : Nat) : ImageLayoutTransition :=
  { level_count := level_count
    old_layout := .UNDEFINED
    new_layout := .TRANSFER_DST_OPTIMAL
    src_access_mask := .EMPTY
    dst_access_mask := .TRANSFER_WRITE
    src_stage_mask := .TOP_OF_PIPE
    dst_stage_mask := .TRANSFER }

/-- AllocatedImage::transition_base_to_shader_read. -/
def transition_base_to_shader_read (base_mip_level : Nat) : ImageLayoutTransition :=
  { base_mip_level := base_mip_level
    old_layout := .TRANSFER_DST_OPTIMAL
    new_layout := .SHADER_READ_ONLY_OPTIMAL
    src_access_mask := .TRANSFER_WRITE
    dst_access_mask := .SHADER_READ
    src_stage_mask := .TRANSFER
    dst_stage_mask := .FRAGMENT_SHADER }

/-- AllocatedImage::transition_mip_transfer_dst_to_src. -/
def transition_mip_transfer_dst_to_src (base_mip_level : Nat) : ImageLayoutTransition :=
  { base_mip_level := base_mip_level
    level_count := 1
    old_layout := .TRANSFER_DST_OPTIMAL
    new_layout := .TRANSFER_SRC_OPTIMAL
    src_access_mask := .TRANSFER_WRITE
    dst_access_mask := .TRANSFER_READ
    src_stage_mask := .TRANSFER
    dst_stage_mask := .TRANSFER }

/-- AllocatedImage::transition_mip_to_shader_read. -/
def transition_mip_to_shader_read (base_mip_level : Nat) : ImageLayoutTransition :=
  { base_mip_level := base_mip_level
    old_layout := .TRANSFER_SRC_OPTIMAL
    new_layout := .SHADER_READ_ONLY_OPTIMAL
    src_access_mask := .TRANSFER_READ
    dst_access_mask := .SHADER_READ
    src_stage_mask := .TRANSFER
    dst_stage_mask := .FRAGMENT_SHADER }

/-- AllocatedImage::copy_to_gpu_buffer: the single copy region. -/
def copy_to_gpu_buffer_region (d : ImageDescription) : BufferImageCopy :=
  { width := d.width
    height := d.height
    layer_count := 1 }

/-- AllocatedImage::blit_mipmap: blit from level `level - 1` into `level`,
one array layer on each side, linear filter, source corner at the current
dimensions and destination corner at the next dimensions. -/
def blit_mipmap (dims : MipmapBlitDimensions) (level : Nat) : ImageBlit :=
  { src_mip_level := level - 1
    src_layer_count := 1
    dst_mip_level := level
    dst_layer_count := 1
    src_offset_x := dims.width
    src_offset_y := dims.height
    dst_offset_x := dims.next_width
    dst_offset_y := dims.next_height
    filter := .LINEAR }

/-- The loop body of AllocatedImage::generate_mipmaps, unrolled on the number
of remaining iterations: `for level in 1..mip_levels` with the running
dimensions updated to the next dimensions after each blit. -/
def generate_mipmaps_from (width height : Int) (level : Nat) : Nat → List Cmd
  | 0 => []
  | n + 1 =>
      let dims := MipmapBlitDimensions.new width height
      Cmd.transition (transition_mip_transfer_dst_to_src (level - 1)) ::
      Cmd.blit_image (blit_mipmap dims level) ::
      Cmd.transition (transition_mip_to_shader_read (level - 1)) ::
      generate_mipmaps_from dims.next_width dims.next_height (level + 1) n

/-- AllocatedImage::generate_mipmaps: the loop runs `mip_levels - 1` times
starting at level 1 with the description's dimensions as i32. -/
def generate_mipmaps (d : ImageDescription) : List Cmd :=
  generate_mipmaps_from (u32_as_i32 d.width) (u32_as_i32 d.height) 1 (d.mip_levels - 1)

/-- Upload failure observable from AllocatedImage::upload_data; the
unsupported-format error is raised by Context::ensure_linear_blitting_supported. -/
inductive UploadError
  | unsupported_format
  deriving DecidableEq

/-- Device capability oracle.  Modelled from the spec:
`Context::ensure_linear_blitting_supported` (the Context type is not among the
sources) fails with `UnsupportedFormatError` exactly when the device cannot
linear-filter-blit the given format; the oracle records for which formats the
device supports linear blitting. -/
def ensure_linear_blitting_supported (blit_linear_ok : VkFormat → Bool)
    (format : VkFormat) : Except UploadError Unit :=
  if blit_linear_ok format then .ok () else .error .unsupported_format

/-- AllocatedImage::upload_data: stage the bytes, transition all mip levels of
the base image from UNDEFINED to TRANSFER_DST, copy the buffer into mip 0,
check linear-blit support (unconditionally, before mipmap generation),
generate the mipmaps, then transition the last level to SHADER_READ_ONLY.
The result is the list of commands issued to the transient pool together
with the error, if any; commands issued before a failure are retained. -/
def upload_data (blit_linear_ok : VkFormat → Bool) (d : ImageDescription) :
    List Cmd × Option UploadError :=
  let pre := [Cmd.transition (transition_base_to_transfer_dst d.mip_levels),
              Cmd.copy_buffer_to_image (copy_to_gpu_buffer_region d)]
  match ensure_linear_blitting_supported blit_linear_ok d.format with
  | .error e => (pre, some e)
  | .ok _ =>
      (pre ++ generate_mipmaps d ++
        [Cmd.transition (transition_base_to_shader_read (d.mip_levels - 1))], none)

/-- The image-create parameters of ImageDescription::create_image that the
claims refer to (extent, format, mip levels, array layer count and the
cube-compatible flag). -/
structure ImageCreateParams where
  width : Nat
  height : Nat
  format : VkFormat
  mip_levels : Nat
  array_layers : Nat
  cube_compatible : Bool
  deriving DecidableEq

/-- ImageDescription::create_image. -/
def ImageDescription.create_image (d : ImageDescription) (cube_compatible : Bool)
    (layers : Nat) : ImageCreateParams :=
  { width := d.width
    height := d.height
    format := d.format
    mip_levels := d.mip_levels
    array_layers := layers
    cube_compatible := cube_compatible }

/-- ImageDescription::as_image: one array layer, no create flags. -/
def ImageDescription.as_image (d : ImageDescription) : ImageCreateParams :=
  d.create_image false 1

/-- ImageDescription::as_cubemap: six array layers, cube-compatible. -/
def ImageDescription.as_cubemap (d : ImageDescription) : ImageCreateParams :=
  d.create_image true 6

/-- Dimension of mip level `n` along one axis following the halving rule the
specification describes: level 0 has the starting dimension and each further
level is the floored half of the previous one, never below 1. -/
def spec_dim_at (d : Int) : Nat → Int
  | 0 => d
  | n + 1 => max (Int.tdiv (spec_dim_at d n) 2) 1

/-- Per-level command block described by the specification for mip level
`lvl`, where `pw`/`ph` are the dimensions of level `lvl - 1`: transition
level `lvl - 1` from TRANSFER_DST to TRANSFER_SRC, blit it into level `lvl`
with linear filtering and destination dimensions the clamped floored halves,
then transition level `lvl - 1` to SHADER_READ_ONLY. -/
def spec_mip_block (pw ph : Int) (lvl : Nat) : List Cmd :=
  [ Cmd.transition
      { base_mip_level := lvl - 1, level_count := 1, layer_count := 1,
        old_layout := .TRANSFER_DST_OPTIMAL, new_layout := .TRANSFER_SRC_OPTIMAL,
        src_access_mask := .TRANSFER_WRITE, dst_access_mask := .TRANSFER_READ,
        src_stage_mask := .TRANSFER, dst_stage_mask := .TRANSFER },
    Cmd.blit_image
      { src_mip_level := lvl - 1, src_layer_count := 1,
        dst_mip_level := lvl, dst_layer_count := 1,
        src_offset_x := pw, src_offset_y := ph,
        dst_offset_x := max (Int.tdiv pw 2) 1, dst_offset_y := max (Int.tdiv ph 2) 1,
        filter := .LINEAR },
    Cmd.transition
      { base_mip_level := lvl - 1, level_count := 1, layer_count := 1,
        old_layout := .TRANSFER_SRC_OPTIMAL, new_layout := .SHADER_READ_ONLY_OPTIMAL,
        src_access_mask := .TRANSFER_READ, dst_access_mask := .SHADER_READ,
        src_stage_mask := .TRANSFER, dst_stage_mask := .FRAGMENT_SHADER } ]

/-- The mipmap-generation trace described by the specification: the per-level
blocks for levels 1 to `mips - 1` in increasing order. -/
def spec_mipmap_trace (w h : Int) (mips : Nat) : List Cmd :=
  (List.range (mips - 1)).flatMap
    (fun i => spec_mip_block (spec_dim_at w i) (spec_dim_at h i) (i + 1))

/-- The final transition described by the specification: the last generated
level, still in TRANSFER_DST, goes to SHADER_READ_ONLY. -/
def spec_final_transition (last_level : Nat) : ImageLayoutTransition :=
  { base_mip_level := last_level, level_count := 1, layer_count := 1,
    old_layout := .TRANSFER_DST_OPTIMAL, new_layout := .SHADER_READ_ONLY_OPTIMAL,
    src_access_mask := .TRANSFER_WRITE, dst_access_mask := .SHADER_READ,
    src_stage_mask := .TRANSFER, dst_stage_mask := .FRAGMENT_SHADER }

theorem spec_dim_at_shift (d : Int) (n : Nat) :
    spec_dim_at d (n + 1) = spec_dim_at (max (Int.tdiv d 2) 1) n := by
  induction n with
  | zero => rfl
  | succ m ih =>
      show max (Int.tdiv (spec_dim_at d (m + 1)) 2) 1 = _
      rw [ih]
      rfl

theorem flatMap_map_nat {α : Type} (g : Nat → Nat) (f : Nat → List α) :
    ∀ l : List Nat, (l.map g).flatMap f = l.flatMap (fun i => f (g i)) := by
  intro l
  induction l with
  | nil => rfl
  | cons a t ih => simp [ih]

theorem generate_mipmaps_from_spec (n : Nat) :
    ∀ (w h : Int) (k : Nat),
      generate_mipmaps_from w h (k + 1) n =
        (List.range n).flatMap
          (fun i => spec_mip_block (spec_dim_at w i) (spec_dim_at h i) (i + k + 1)) := by
  induction n with
  | zero => intro w h k; rfl
  | succ m ih =>
      intro w h k
      rw [List.range_succ_eq_map]
      have hmap := flatMap_map_nat Nat.succ
        (fun i => spec_mip_block (spec_dim_at w i) (spec_dim_at h i) (i + k + 1))
        (List.range m)
      show Cmd.transition (transition_mip_transfer_dst_to_src k) ::
           Cmd.blit_image (blit_mipmap (MipmapBlitDimensions.new w h) (k + 1)) ::
           Cmd.transition (transition_mip_to_shader_read k) ::
           generate_mipmaps_from (max (Int.tdiv w 2) 1) (max (Int.tdiv h 2) 1) (k + 2) m = _
      rw [ih (max (Int.tdiv w 2) 1) (max (Int.tdiv h 2) 1) (k + 1)]
      simp only [List.flatMap_cons, hmap]
      have hfun : (fun i => spec_mip_block (spec_dim_at (max (Int.tdiv w 2) 1) i)
            (spec_dim_at (max (Int.tdiv h 2) 1) i) (i + (k + 1) + 1)) =
          (fun i => spec_mip_block (spec_dim_at w (Nat.succ i)) (spec_dim_at h (Nat.succ i))
            (Nat.succ i + k + 1)) := by
        funext i
        rw [← spec_dim_at_shift w i, ← spec_dim_at_shift h i]
        congr 1
        omega
      rw [hfun]
      simp only [Nat.zero_add]
      rfl

/-- C4: for every description with at least one mip level whose format the
device can linear-filter-blit, the command trace of upload_data is exactly
the initial whole-range UNDEFINED to TRANSFER_DST transition and the
buffer-to-image copy, followed by the specification's mipmap algorithm (for
each level L from 1 to mip_levels - 1 in increasing order: transition level
L-1 from TRANSFER_DST to TRANSFER_SRC, linear blit of level L-1 into level L
with destination dimensions the floored halves clamped at 1 in each axis,
transition level L-1 to SHADER_READ_ONLY), and finally the transition of
level mip_levels - 1, still in TRANSFER_DST, to SHADER_READ_ONLY. -/
theorem upload_data_executes_spec_mipmap_algorithm (blit_linear_ok : VkFormat → Bool)
    (d : ImageDescription) (h1 : 1 ≤ d.mip_levels) (h2 : blit_linear_ok d.format = true) :
    (upload_data blit_linear_ok d).1 =
      Cmd.transition (transition_base_to_transfer_dst d.mip_levels) ::
      Cmd.copy_buffer_to_image (copy_to_gpu_buffer_region d) ::
      (spec_mipmap_trace (u32_as_i32 d.width) (u32_as_i32 d.height) d.mip_levels ++
       [Cmd.transition (spec_final_transition (d.mip_levels - 1))]) := by
  have hgen : generate_mipmaps d =
      spec_mipmap_trace (u32_as_i32 d.width) (u32_as_i32 d.height) d.mip_levels := by
    unfold generate_mipmaps spec_mipmap_trace
    simpa using generate_mipmaps_from_spec (d.mip_levels - 1)
      (u32_as_i32 d.width) (u32_as_i32 d.height) 0
  simp [upload_data, ensure_linear_blitting_supported, h2, hgen,
        spec_final_transition, transition_base_to_shader_read]

/-- C4 witness: the trace equality evaluated at a concrete 4-by-4 description
with three mip levels and a device that supports linear blitting. -/
theorem upload_data_executes_spec_mipmap_algorithm_witness :
    (upload_data (fun _ => true)
        { format := .R8G8B8A8_UNORM, width := 4, height := 4, pixels := [], mip_levels := 3 }).1 =
      Cmd.transition (transition_base_to_transfer_dst 3) ::
      Cmd.copy_buffer_to_image (copy_to_gpu_buffer_region
        { format := .R8G8B8A8_UNORM, width := 4, height := 4, pixels := [], mip_levels := 3 }) ::
      (spec_mipmap_trace (u32_as_i32 4) (u32_as_i32 4) 3 ++
       [Cmd.transition (spec_final_transition 2)]) :=
  upload_data_executes_spec_mipmap_algorithm (fun _ => true)
    { format := .R8G8B8A8_UNORM, width := 4, height := 4, pixels := [], mip_levels := 3 }
    (by decide) rfl

/-- Description used by the single-mip upload counterexample. -/
def single_mip_description : ImageDescription :=
  { format := .R8G8B8A8_UNORM, width := 1, height := 1,
    pixels := [0, 0, 0, 255], mip_levels := 1 }

/-- C3 counterexample: with a device that cannot linear-filter-blit the
format, upload_data fails with the unsupported-format error even for a
description with exactly one mip level, because the blit-support check runs
unconditionally before mipmap generation. -/
theorem upload_data_fails_even_for_single_mip :
    single_mip_description.mip_levels = 1 ∧
    (upload_data (fun _ => false) single_mip_description).2 =
      some UploadError.unsupported_format :=
  ⟨rfl, rfl⟩

/-- C3 (amended): upload_data fails with the unsupported-format error exactly
when the device cannot linear-filter-blit the description's format; the check
is unconditional and does not depend on mip_levels, so it also fires when
mip_levels is 1. -/
theorem upload_data_unsupported_iff (blit_linear_ok : VkFormat → Bool)
    (d : ImageDescription) :
    (upload_data blit_linear_ok d).2 = some UploadError.unsupported_format ↔
      blit_linear_ok d.format = false := by
  by_cases hb : blit_linear_ok d.format
  · simp [upload_data, ensure_linear_blitting_supported, hb]
  · simp [upload_data, ensure_linear_blitting_supported, hb]

/-- One axis of the running dimensions of generate_mipmaps: the dimension
after `n` halvings through MipmapBlitDimensions::new (each axis follows the
same recurrence independently of the other). -/
def iterated_next_width (w : Int) : Nat → Int
  | 0 => w
  | n + 1 =>
      (MipmapBlitDimensions.new (iterated_next_width w n) (iterated_next_width w n)).next_width

/-- C5: starting from any dimension at least 1, the successive next-dimension
computed by the mipmap blit is at least 1 at every iteration, and for the
starting width 3 the successive next-widths are 3, 1, 1. -/
theorem mipmap_halving_never_below_one (d : Int) (hd : 1 ≤ d) :
    (∀ n : Nat, 1 ≤ iterated_next_width d n) ∧
    iterated_next_width 3 0 = 3 ∧ iterated_next_width 3 1 = 1 ∧
    iterated_next_width 3 2 = 1 := by
  refine ⟨?_, by decide, by decide, by decide⟩
  intro n
  cases n with
  | zero => exact hd
  | succ m =>
      show 1 ≤ max (Int.tdiv (iterated_next_width d m) 2) 1
      exact le_max_right _ 1

/-- C5 witness: the halving invariant evaluated at the concrete starting
dimension 5 and iteration 3, together with the concrete width-3 chain. -/
theorem mipmap_halving_never_below_one_witness :
    1 ≤ iterated_next_width 5 3 ∧ iterated_next_width 3 2 = 1 :=
  ⟨(mipmap_halving_never_below_one 5 (by decide)).1 3,
   (mipmap_halving_never_below_one 5 (by decide)).2.2.2⟩

/-- A command addresses exactly one array layer starting at layer 0: for a
transition this is read off the subresource range that transition_image
builds, for a copy or blit off the subresource-layers fields (for a copy also
that it targets mip level 0). -/
def Cmd.single_layer : Cmd → Bool
  | .transition t =>
      (transition_image_range t).layer_count == 1 &&
      (transition_image_range t).base_array_layer == 0
  | .copy_buffer_to_image r =>
      r.layer_count == 1 && r.base_array_layer == 0 && r.mip_level == 0
  | .blit_image b =>
      b.src_layer_count == 1 && b.dst_layer_count == 1 &&
      b.src_base_array_layer == 0 && b.dst_base_array_layer == 0

theorem generate_mipmaps_from_single_layer (n : Nat) :
    ∀ (w h : Int) (level : Nat) (c : Cmd),
      c ∈ generate_mipmaps_from w h level n → c.single_layer = true := by
  induction n with
  | zero => intro w h level c hc; simp [generate_mipmaps_from] at hc
  | succ m ih =>
      intro w h level c hc
      simp only [generate_mipmaps_from, List.mem_cons] at hc
      rcases hc with h1 | h2 | h3 | h4
      · subst h1; rfl
      · subst h2; rfl
      · subst h3; rfl
      · exact ih _ _ _ _ h4

/-- C10: creating the image for a description via as_cubemap allocates six
array layers, yet every command upload_data issues (the initial whole-range
layout transition, the buffer-to-image copy, every mipmap blit and every
per-level transition) addresses exactly one array layer starting at layer 0,
the copy targeting mip level 0; the upload trace does not depend on the
allocated layer count at all. -/
theorem upload_data_targets_single_layer (blit_linear_ok : VkFormat → Bool)
    (d : ImageDescription) :
    (d.as_cubemap).array_layers = 6 ∧
    ∀ c ∈ (upload_data blit_linear_ok d).1, c.single_layer = true := by
  refine ⟨rfl, ?_⟩
  intro c hc
  unfold upload_data at hc
  cases hb : ensure_linear_blitting_supported blit_linear_ok d.format with
  | error e =>
      rw [hb] at hc
      simp only [List.mem_cons, List.not_mem_nil, or_false] at hc
      rcases hc with h1 | h2
      · subst h1; rfl
      · subst h2; rfl
  | ok u =>
      rw [hb] at hc
      simp only [List.mem_cons, List.mem_append, List.not_mem_nil, or_false] at hc
      rcases hc with ((h1 | h2) | h3) | h4
      · subst h1; rfl
      · subst h2; rfl
      · exact generate_mipmaps_from_single_layer _ _ _ _ _ h3
      · subst h4; rfl

/-- Description used by the single-layer witness. -/
def cubemap_upload_description : ImageDescription :=
  { format := .R8G8B8A8_UNORM, width := 2, height := 2, pixels := [], mip_levels := 2 }

/-- C10 witness: the single-layer theorem evaluated at a concrete two-level
description, checked on the concrete copy command of its upload trace. -/
theorem upload_data_targets_single_layer_witness :
    (cubemap_upload_description.as_cubemap).array_layers = 6 ∧
    Cmd.single_layer
      (Cmd.copy_buffer_to_image (copy_to_gpu_buffer_region cubemap_upload_description)) = true :=
  ⟨(upload_data_targets_single_layer (fun _ => true) cubemap_upload_description).1,
   (upload_data_targets_single_layer (fun _ => true) cubemap_upload_description).2 _
     (by decide)⟩

/-- Outcome of the per-slot acquire step as reported by the presentation
surface. -/
inductive AcquireOutcome
  | acquired (image_index : Nat)
  | out_of_date
  deriving DecidableEq

/-- Outcome of the present step as reported by the presentation queue. -/
inductive PresentOutcome
  | ok
  | out_of_date
  | suboptimal
  deriving DecidableEq

/-- Environment events consumed by one Frame-engine render call: the acquire
outcome and, when submission happens, the present outcome. -/
structure FrameEvent where
  acq : AcquireOutcome
  pres : PresentOutcome
  deriving DecidableEq

/-- Observable Frame-engine state. -/
structure Frame where
  recreated_swapchain : Bool
  current_frame : Nat
  max_frames_in_flight : Nat
  swapchain_generation : Nat
  deriving DecidableEq

/-- Modelled from the spec: Frame::render, the per-call step of the frame
engine (its implementation file is not among the sources; only its callers
are).  Per the specification: when acquire reports the surface out of date,
submission is skipped, the surface is recreated and the recreated_swapchain
flag is reported true for exactly this call; otherwise the frame is
submitted and presented, a present-reported out-of-date or suboptimal
surface triggers the same recreation path, and the in-flight index advances
modulo the maximum number of frames in flight.  The flag reverts to false on
the next call unless that call itself recreates the surface. -/
def Frame.render (f : Frame) (ev : FrameEvent) : Frame :=
  match ev.acq with
  | .out_of_date =>
      { f with recreated_swapchain := true,
               swapchain_generation := f.swapchain_generation + 1 }
  | .acquired _ =>
      let submitted := { f with recreated_swapchain := false }
      let presented :=
        match ev.pres with
        | .ok => submitted
        | _ => { submitted with recreated_swapchain := true,
                                swapchain_generation := submitted.swapchain_generation + 1 }
      { presented with
          current_frame := (presented.current_frame + 1) % presented.max_frames_in_flight }

/-- Iterated render calls over a list of environment events. -/
def Frame.render_seq (f : Frame) : List FrameEvent → Frame
  | [] => f
  | ev :: rest => Frame.render_seq (f.render ev) rest

/-- An event is clean when acquire succeeds and present reports neither an
out-of-date nor a suboptimal surface, so no recreation is triggered. -/
def FrameEvent.clean : FrameEvent → Bool
  | { acq := .acquired _, pres := .ok } => true
  | _ => false

theorem render_clean_flag_false (f : Frame) (ev : FrameEvent)
    (hev : ev.clean = true) : (f.render ev).recreated_swapchain = false := by
  rcases ev with ⟨acq, pres⟩
  cases acq with
  | out_of_date => simp [FrameEvent.clean] at hev
  | acquired i =>
      cases pres with
      | ok => rfl
      | out_of_date => simp [FrameEvent.clean] at hev
      | suboptimal => simp [FrameEvent.clean] at hev

theorem render_seq_clean_flag_false (evs : List FrameEvent) :
    ∀ f : Frame, evs ≠ [] → (∀ e ∈ evs, e.clean = true) →
      (Frame.render_seq f evs).recreated_swapchain = false := by
  induction evs with
  | nil => intro f hne _; exact absurd rfl hne
  | cons e rest ih =>
      intro f _ hclean
      cases rest with
      | nil =>
          exact render_clean_flag_false f e (hclean e (List.mem_cons_self e []))
      | cons e2 rest2 =>
          exact ih (f.render e) (by simp) (fun x hx => hclean x (List.mem_cons_of_mem e hx))

/-- C7: after a render call whose acquire reports the surface out of date
(and whose recreation therefore runs), the recreated_swapchain flag is true
for exactly that one call: it is observed true immediately after the call,
and after any nonempty run of further calls without surface invalidation it
is observed false. -/
theorem recreated_swapchain_exactly_one_call (f : Frame) (ev : FrameEvent)
    (hacq : ev.acq = AcquireOutcome.out_of_date) (evs : List FrameEvent)
    (hne : evs ≠ []) (hclean : ∀ e ∈ evs, e.clean = true) :
    (f.render ev).recreated_swapchain = true ∧
    (Frame.render_seq (f.render ev) evs).recreated_swapchain = false := by
  constructor
  · rcases ev with ⟨acq, pres⟩
    cases acq with
    | out_of_date => rfl
    | acquired i => simp at hacq
  · exact render_seq_clean_flag_false evs (f.render ev) hne hclean

/-- C7 witness: the one-call flag theorem evaluated on a concrete frame, a
concrete out-of-date acquire and two subsequent clean calls. -/
theorem recreated_swapchain_exactly_one_call_witness :
    ((Frame.render
        { recreated_swapchain := false, current_frame := 0,
          max_frames_in_flight := 2, swapchain_generation := 0 }
        { acq := .out_of_date, pres := .ok }).recreated_swapchain = true) ∧
    ((Frame.render_seq
        (Frame.render
          { recreated_swapchain := false, current_frame := 0,
            max_frames_in_flight := 2, swapchain_generation := 0 }
          { acq := .out_of_date, pres := .ok })
        [{ acq := .acquired 0, pres := .ok },
         { acq := .acquired 1, pres := .ok }]).recreated_swapchain = false) :=
  recreated_swapchain_exactly_one_call
    { recreated_swapchain := false, current_frame := 0,
      max_frames_in_flight := 2, swapchain_generation := 0 }
    { acq := .out_of_date, pres := .ok } rfl
    [{ acq := .acquired 0, pres := .ok }, { acq := .acquired 1, pres := .ok }]
    (by decide) (by decide)

/-- Steps of the run_app teardown path (src/support/app.rs): on the
LoopDestroyed event the handler first calls the App::cleanup hook (the
default trait implementation, a no-op returning Ok, is used by both shipped
binaries) and then waits for the device to go idle; the RenderDevice and the
application (with its render graph) are owned by the event-loop closure and
their Drop implementations, which release the GPU resources, run only after
the closure itself is dropped when the event loop shuts down. -/
inductive TeardownStep
  | app_cleanup_hook
  | device_wait_idle
  | destroy_command_pool
  | destroy_frame
  | destroy_context
  | destroy_app_resources
  deriving DecidableEq

/-- Whether a teardown step destroys a GPU resource. -/
def TeardownStep.is_destroy : TeardownStep → Bool
  | .destroy_command_pool => true
  | .destroy_frame => true
  | .destroy_context => true
  | .destroy_app_resources => true
  | _ => false

/-- The teardown trace of run_app: cleanup hook, device-idle wait, then the
drops of the captured RenderDevice fields (in declaration order) and of the
application's resources. -/
def run_app_teardown : List TeardownStep :=
  [ .app_cleanup_hook, .device_wait_idle,
    .destroy_command_pool, .destroy_frame, .destroy_context,
    .destroy_app_resources ]

/-- C8: in the run_app teardown trace no resource-destruction step precedes
the device-idle wait: every step before the wait destroys nothing, the wait
does occur, and destruction steps do occur (after it). -/
theorem teardown_idle_wait_before_destruction :
    ((run_app_teardown.takeWhile
        (fun s => !(s == TeardownStep.device_wait_idle))).all
      (fun s => !s.is_destroy) = true) ∧
    TeardownStep.device_wait_idle ∈ run_app_teardown ∧
    (run_app_teardown.filter (fun s => s.is_destroy)).length = 4 := by
  refine ⟨rfl, ?_, rfl⟩
  decide

/-- The runtime surface and device properties available when RenderDevice is
constructed; the frames-in-flight count must not depend on any of them. -/
structure SurfaceRuntimeInfo where
  image_count : Nat
  format_code : Nat
  surface_width : Nat
  surface_height : Nat
  deriving DecidableEq

/-- RenderDevice::MAX_FRAMES_IN_FLIGHT (src/support/vulkan/device.rs): a
compile-time constant. -/
def RenderDevice.MAX_FRAMES_IN_FLIGHT : Nat := 2

/-- The arguments RenderDevice::new passes to Frame::new. -/
structure FrameNewArgs where
  dimensions : Nat × Nat
  frames_in_flight : Nat
  deriving DecidableEq

/-- RenderDevice::new passes the window dimensions and the compile-time
constant to Frame::new, whatever the runtime surface queries returned. -/
def RenderDevice.frame_new_args (dimensions : Nat × Nat)
    (queries : SurfaceRuntimeInfo) : FrameNewArgs :=
  { dimensions := dimensions
    frames_in_flight := RenderDevice.MAX_FRAMES_IN_FLIGHT }

/-- C9: the maximum number of in-flight frames is the compile-time constant
2, passed to the frame engine at construction, and the value passed never
varies with the runtime surface or device query results. -/
theorem max_frames_in_flight_is_constant_two :
    RenderDevice.MAX_FRAMES_IN_FLIGHT = 2 ∧
    (∀ (dims : Nat × Nat) (q q2 : SurfaceRuntimeInfo),
      (RenderDevice.frame_new_args dims q).frames_in_flight = 2 ∧
      (RenderDevice.frame_new_args dims q).frames_in_flight =
        (RenderDevice.frame_new_args dims q2).frames_in_flight) :=
  ⟨rfl, fun dims q q2 => ⟨rfl, rfl⟩⟩
